import Mathlib

/-!
Shallow embedding of the waypoint quantization, debouncing, recording and
matching engine of `src/hello-myo.cpp` (MyoPhysicalTherapy), together with
proofs settling the frozen claims about it.

Conventions of the embedding:
* C `int` values are modelled as `Int` (the counters `correct`/`strikes`,
  which the code keeps nonnegative and small, as `Nat`).
* The collector state delivered by one `hub->run` call is one `Collector`
  record; a session's input is a finite `List Collector`.  A loop that would
  block forever waiting for further samples returns `none`.
* The floating-point quantization formulas of `onOrientationData` are
  modelled over the reals, with C truncation-toward-zero made explicit.
-/

namespace MyoPT

/-- Global constant `TOLERANCE = 2` (line 19 of the source). -/
def TOLERANCE : Nat := 2

/-- Global constant `MAX_STRIKES = 2` (line 20 of the source). -/
def MAX_STRIKES : Nat := 2

/-- `struct EulerAngle` (lines 168-195): a triple of `int`s, default `(0,0,0)`. -/
structure EulerAngle where
  roll : Int := 0
  pitch : Int := 0
  yaw : Int := 0
deriving DecidableEq, Repr

/-- `EulerAngle::equals` (lines 174-186): per-axis absolute difference at most
`TOLERANCE` on all three axes simultaneously. -/
def EulerAngle.equals (a b : EulerAngle) : Bool :=
  decide ((a.roll - b.roll).natAbs ≤ TOLERANCE) &&
  decide ((a.pitch - b.pitch).natAbs ≤ TOLERANCE) &&
  decide ((a.yaw - b.yaw).natAbs ≤ TOLERANCE)

/-- The Myo pose vocabulary used by the program (`myo::Pose`). -/
inductive Pose where
  | unknown
  | rest
  | fist
  | waveIn
  | waveOut
  | fingersSpread
  | doubleTap
deriving DecidableEq, Repr

/-- The observable `DataCollector` state after one `hub->run` slice:
`currentPose` and the quantized axis values `roll_w`, `pitch_w`, `yaw_w`. -/
structure Collector where
  currentPose : Pose
  roll_w : Int
  pitch_w : Int
  yaw_w : Int
deriving DecidableEq, Repr

/-- The waypoint read off the collector (`collector->roll_w` etc.). -/
def Collector.angle (c : Collector) : EulerAngle :=
  { roll := c.roll_w, pitch := c.pitch_w, yaw := c.yaw_w }

/-- The minor-change test shared by `record` (line 292) and `isGesture`
(line 366): every axis of the incoming waypoint within 1 of `lastAngle`. -/
def minorStep (last w : EulerAngle) : Bool :=
  decide ((last.pitch - w.pitch).natAbs ≤ 1) &&
  decide ((last.roll - w.roll).natAbs ≤ 1) &&
  decide ((last.yaw - w.yaw).natAbs ≤ 1)

/-- Debouncer state carried by both loops: the last emitted waypoint
(`lastAngle`, initially the default `(0,0,0)`) and the `minorChange` flag
(initially `false`). -/
structure DebState where
  lastAngle : EulerAngle := {}
  minorChange : Bool := false
deriving DecidableEq, Repr

/-- One debounce decision, exactly the shared logic of lines 287-300 and
361-374: exact repeat of `lastAngle` is dropped (flag cleared); a waypoint
within 1 on every axis **while the flag is set** is dropped (flag set);
anything else is emitted and becomes the new `lastAngle`. -/
def debStep (s : DebState) (w : EulerAngle) : DebState × Option EulerAngle :=
  if s.lastAngle = w then ({ s with minorChange := false }, none)
  else if minorStep s.lastAngle w && s.minorChange then
    ({ s with minorChange := true }, none)
  else ({ lastAngle := w, minorChange := false }, some w)

/-- Run of the debouncer over an input stream, collecting emitted waypoints. -/
def debRun (s : DebState) : List EulerAngle → List EulerAngle
  | [] => []
  | w :: ws =>
    match debStep s w with
    | (s', none) => debRun s' ws
    | (s', some e) => e :: debRun s' ws

/-- State of `GestureRecorder::record` (lines 265-310): the debounce state
plus the gesture accumulated so far (`lastGesture->values`). -/
structure RecState where
  lastAngle : EulerAngle := {}
  minorChange : Bool := false
  gesture : List EulerAngle := []
deriving DecidableEq, Repr

/-- The `record` loop (lines 271-309).  Each iteration consumes one collector
slice (`hub->run`), breaks on `doubleTap` returning the accumulated gesture
and the unconsumed stream, and otherwise applies the debounce logic, appending
every emitted waypoint.  An exhausted stream means the loop blocks: `none`. -/
def recordLoop : RecState → List Collector → Option (List EulerAngle × List Collector)
  | _, [] => none
  | s, c :: rest =>
    if c.currentPose = Pose.doubleTap then some (s.gesture, rest)
    else if s.lastAngle = c.angle then
      recordLoop { s with minorChange := false } rest
    else if minorStep s.lastAngle c.angle && s.minorChange then
      recordLoop { s with minorChange := true } rest
    else
      recordLoop { lastAngle := c.angle, minorChange := false,
                   gesture := s.gesture ++ [c.angle] } rest

/-- State of `GestureListener::isGesture` (lines 346-397): debounce state plus
the counters `correct` and `strikes`. -/
structure MatchState where
  lastAngle : EulerAngle := {}
  correct : Nat := 0
  strikes : Nat := 0
  minorChange : Bool := false
deriving DecidableEq, Repr

/-- The match decision of lines 378-390: `gesture->equals(newAngle, correct)`
(tolerance comparison against `values->at(correct)`) increments `correct`;
otherwise, with `strikes >= MAX_STRIKES`, both counters reset to 0; otherwise
`strikes` increments.  Returns the new `(correct, strikes)` pair. -/
def matchStep (g : List EulerAngle) (correct strikes : Nat) (w : EulerAngle) :
    Nat × Nat :=
  if (g.getD correct {}).equals w then (correct + 1, strikes)
  else if MAX_STRIKES ≤ strikes then (0, 0)
  else (correct, strikes + 1)

/-- The `isGesture` loop (lines 353-396).  `pose` is the collector pose as
last observed (the `waveOut` abort check at line 355 runs *before* this
iteration's `hub->run`).  The loop exits returning `true` (line 396) both when
`correct` reaches the gesture length and on abort; the result carries the
unconsumed remainder of the stream.  An exhausted stream inside the loop
means it blocks: `none`. -/
def isGestureLoop (g : List EulerAngle) : Pose → MatchState → List Collector →
    Option (Bool × List Collector)
  | pose, s, [] =>
    if s.correct < g.length then
      if pose = Pose.waveOut then some (true, []) else none
    else some (true, [])
  | pose, s, c :: rest =>
    if s.correct < g.length then
      if pose = Pose.waveOut then some (true, c :: rest)
      else if s.lastAngle = c.angle then
        isGestureLoop g c.currentPose { s with minorChange := false } rest
      else if minorStep s.lastAngle c.angle && s.minorChange then
        isGestureLoop g c.currentPose { s with minorChange := true } rest
      else
        isGestureLoop g c.currentPose
          { lastAngle := c.angle,
            correct := (matchStep g s.correct s.strikes c.angle).1,
            strikes := (matchStep g s.correct s.strikes c.angle).2,
            minorChange := false } rest
    else some (true, c :: rest)

/-- The `record` loop with the (dead) minor-change branch removed: every
incoming waypoint that is not an exact repeat of `lastAngle` is appended. -/
def recordLoopNM : EulerAngle → List EulerAngle → List Collector →
    Option (List EulerAngle × List Collector)
  | _, _, [] => none
  | last, ges, c :: rest =>
    if c.currentPose = Pose.doubleTap then some (ges, rest)
    else if last = c.angle then recordLoopNM last ges rest
    else recordLoopNM c.angle (ges ++ [c.angle]) rest

/-- The `isGesture` loop with the (dead) minor-change branch removed. -/
def isGestureLoopNM (g : List EulerAngle) : Pose → EulerAngle → Nat → Nat →
    List Collector → Option (Bool × List Collector)
  | pose, _, correct, _, [] =>
    if correct < g.length then
      if pose = Pose.waveOut then some (true, []) else none
    else some (true, [])
  | pose, last, correct, strikes, c :: rest =>
    if correct < g.length then
      if pose = Pose.waveOut then some (true, c :: rest)
      else if last = c.angle then
        isGestureLoopNM g c.currentPose last correct strikes rest
      else
        isGestureLoopNM g c.currentPose c.angle
          (matchStep g correct strikes c.angle).1
          (matchStep g correct strikes c.angle).2 rest
    else some (true, c :: rest)

/-- A stored `Gesture*`: `none` models a null pointer (the default value a
`std::map<std::string, Gesture*>` creates for an absent key). -/
def GPtr := Option (List EulerAngle)
deriving DecidableEq, Repr

/-- The gesture registry `std::map<std::string, Gesture*> gest` (line 468):
an association list kept sorted by key, as `std::map` iterates keys in
sorted order. -/
def GestMap := List (String × GPtr)
deriving DecidableEq, Repr

/-- The strict key order of `std::map<std::string, ...>`: lexicographic
comparison of the character sequences (`std::string::operator<`). -/
def keyLt (a b : String) : Bool := decide (a.data < b.data)

/-- `std::map::operator[]` as used for saving at line 545
(`gestures.gest[name] = ...`): insert at the sorted position, overwriting an
existing entry for the key. -/
def mapAssign : GestMap → String → GPtr → GestMap
  | [], k, v => [(k, v)]
  | (k', v') :: rest, k, v =>
    if keyLt k k' then (k, v) :: (k', v') :: rest
    else if k = k' then (k, v) :: rest
    else (k', v') :: mapAssign rest k v

/-- `std::map::operator[]` as used for lookup at line 575
(`gestures.gest[gestures.keyAt(input - 1)]`): return the mapped pointer if
the key is present; otherwise insert a default (null) pointer at the sorted
position and return it.  Returns the updated map and the pointer. -/
def mapBracketGet : GestMap → String → GestMap × GPtr
  | [], k => ([(k, (none : GPtr))], (none : GPtr))
  | (k', v') :: rest, k =>
    if keyLt k k' then ((k, (none : GPtr)) :: (k', v') :: rest, (none : GPtr))
    else if k = k' then ((k', v') :: rest, v')
    else
      ((k', v') :: (mapBracketGet rest k).1, (mapBracketGet rest k).2)

/-- Membership lookup (no `std::map::find` appears in the source; this is the
mathematical "is the name present" question used to state claims). -/
def mapFind : GestMap → String → Option GPtr
  | [], _ => none
  | (k', v') :: rest, k => if k = k' then some v' else mapFind rest k

/-- The loop body of `Gestures::keyAt` (lines 469-479): walk the map entries
with a counter `i` that the code **never increments**, returning the current
key when `i == n`.  Falling off the end of the non-void function is modelled
as `none`. -/
def keyAtLoop (i n : Int) : GestMap → Option String
  | [] => none
  | (k, _) :: rest => if i = n then some k else keyAtLoop i n rest

/-- `Gestures::keyAt(n)` (lines 469-479): the loop above started at `i = 0`. -/
def keyAt (m : GestMap) (n : Int) : Option String :=
  keyAtLoop 0 n m

/-! ### Quantizer (`DataCollector::onOrientationData`, lines 47-67)

The floating-point computation is modelled over the reals.  `atan2 y x` is
the argument of the complex number `x + y i` (range `(-π, π]`, the
mathematical content of C's `atan2`), and the C `static_cast<int>`
truncation toward zero is `cTrunc`. -/

/-- A quaternion sample as delivered to `onOrientationData`. -/
structure Quat where
  w : ℝ
  x : ℝ
  y : ℝ
  z : ℝ

/-- `std::atan2` over the reals: the argument of `x + y i`. -/
noncomputable def atan2 (y x : ℝ) : ℝ := Complex.arg ⟨x, y⟩

/-- C `static_cast<int>` on a real value: truncation toward zero. -/
noncomputable def cTrunc (x : ℝ) : ℤ := if 0 ≤ x then ⌊x⌋ else ⌈x⌉

/-- `roll` (lines 56-57): `atan2(2(wx + yz), 1 - 2(x² + y²))`. -/
noncomputable def quatRoll (q : Quat) : ℝ :=
  atan2 (2 * (q.w * q.x + q.y * q.z)) (1 - 2 * (q.x * q.x + q.y * q.y))

/-- `pitch` (line 58): `asin(max(-1, min(1, 2(wy - zx))))`. -/
noncomputable def quatPitch (q : Quat) : ℝ :=
  Real.arcsin (max (-1) (min 1 (2 * (q.w * q.y - q.z * q.x))))

/-- `yaw` (lines 59-60): `atan2(2(wz + xy), 1 - 2(y² + z²))`. -/
noncomputable def quatYaw (q : Quat) : ℝ :=
  atan2 (2 * (q.w * q.z + q.x * q.y)) (1 - 2 * (q.y * q.y + q.z * q.z))

/-- `roll_w` (line 63): `(int)((roll + π) / (π * 2) * 18)`. -/
noncomputable def roll_w (q : Quat) : ℤ :=
  cTrunc ((quatRoll q + Real.pi) / (Real.pi * 2) * 18)

/-- `pitch_w` (line 64): `(int)((pitch + π / 2) / π * 18)`. -/
noncomputable def pitch_w (q : Quat) : ℤ :=
  cTrunc ((quatPitch q + Real.pi / 2) / Real.pi * 18)

/-- `yaw_w` (line 65): `(int)((yaw + π) / (π * 2) * 18)`. -/
noncomputable def yaw_w (q : Quat) : ℤ :=
  cTrunc ((quatYaw q + Real.pi) / (Real.pi * 2) * 18)

/-! ### Theorems -/

/-- Once the debouncer's `lastAngle` equals the incoming constant waypoint,
the whole remaining constant stream is dropped. -/
theorem debRun_const (w : EulerAngle) :
    ∀ (m : Nat) (b : Bool), debRun ⟨w, b⟩ (List.replicate m w) = [] := by
  intro m
  induction m with
  | zero => intro b; rfl
  | succ k ih => intro b; simpa [List.replicate, debRun, debStep] using ih false

/-- C6: feeding the debouncer a constant stream of `n` copies of `w` yields at
most one emitted waypoint: nothing when `w` is the `(0,0,0)` sentinel (it is
an exact repeat of the initial `lastAngle`), and exactly `[w]` otherwise for
`n ≥ 1`, every exact repeat of the last emitted waypoint being dropped. -/
theorem debounce_static_stream (n : Nat) (w : EulerAngle) :
    (debRun ⟨⟨0, 0, 0⟩, false⟩ (List.replicate n w)).length ≤ 1 ∧
    debRun ⟨⟨0, 0, 0⟩, false⟩ (List.replicate n w) =
      (if n = 0 ∨ w = ⟨0, 0, 0⟩ then [] else [w]) := by
  have key : debRun ⟨⟨0, 0, 0⟩, false⟩ (List.replicate n w) =
      (if n = 0 ∨ w = ⟨0, 0, 0⟩ then [] else [w]) := by
    cases n with
    | zero => simp [debRun]
    | succ k =>
      by_cases hw : w = ⟨0, 0, 0⟩
      · subst hw
        simpa [List.replicate, debRun, debStep] using debRun_const _ k false
      · have h0 : ¬((⟨0, 0, 0⟩ : EulerAngle) = w) := fun h => hw h.symm
        simp [List.replicate, debRun, debStep, h0, hw, debRun_const]
  refine ⟨?_, key⟩
  rw [key]
  split <;> simp

/-- C10: for the empty gesture (`getNumSteps() = 0`) the `isGesture` loop
condition `correct < numSteps` fails immediately, so the call returns `true`
without consuming any sample of the stream and without ever reaching the
`waveOut` abort check, whatever the current pose and state. -/
theorem empty_gesture_matches (pose : Pose) (s : MatchState)
    (stream : List Collector) :
    isGestureLoop [] pose s stream = some (true, stream) := by
  cases stream <;> simp [isGestureLoop]

/-- C2 (amended): if the `waveOut` abort pose is observed before any sample
of the stream is processed, `isGesture` exits at once, consuming nothing —
but it returns `true`, the very value the `Completed` outcome returns
(line 396 is the only return). -/
theorem abort_returns_true (g : List EulerAngle) (s : MatchState)
    (stream : List Collector) :
    isGestureLoop g Pose.waveOut s stream = some (true, stream) := by
  cases stream <;> simp [isGestureLoop]

/-- C2 counterexample: on the gesture `[(5,5,5)]` the abort-before-anything
session and a genuinely completed session return the *same* value
`some (true, [])`; the `Aborted` outcome is not distinguishable from the
`Completed` outcome in the value `isGesture` returns. -/
theorem abort_result_equals_completed_result :
    isGestureLoop [⟨5, 5, 5⟩] Pose.waveOut ⟨⟨0, 0, 0⟩, 0, 0, false⟩ [] =
      some (true, []) ∧
    isGestureLoop [⟨5, 5, 5⟩] Pose.rest ⟨⟨0, 0, 0⟩, 0, 0, false⟩
      [⟨Pose.rest, 5, 5, 5⟩] = some (true, []) := by
  decide

/-- C4: once `strikes` has reached `MAX_STRIKES`, one more emitted waypoint
that is not tolerance-equal to the current target resets both counters to 0
(lines 382-386); with `correct = 0` the next comparison is made against the
gesture's first waypoint again. -/
theorem strikes_exhausted_resets (g : List EulerAngle) (correct strikes : Nat)
    (w : EulerAngle) (hc : correct < g.length) (hs : MAX_STRIKES ≤ strikes)
    (hne : (g.getD correct ⟨0, 0, 0⟩).equals w = false) :
    matchStep g correct strikes w = (0, 0) := by
  simp only [matchStep]
  rw [hne]
  simp [hs]

/-- Witness for `strikes_exhausted_resets` at gesture `[(5,5,5),(10,5,5)]`,
target index 1, `strikes = 2`, mismatching waypoint `(0,0,0)`. -/
theorem strikes_exhausted_resets_case :
    matchStep [⟨5, 5, 5⟩, ⟨10, 5, 5⟩] 1 2 ⟨0, 0, 0⟩ = (0, 0) :=
  strikes_exhausted_resets [⟨5, 5, 5⟩, ⟨10, 5, 5⟩] 1 2 ⟨0, 0, 0⟩
    (by decide) (by decide) (by decide)

/-- C5: an emitted waypoint tolerance-equal to the current target increments
`correct` and leaves `strikes` untouched (line 378-381 only runs
`correct++`); `strikes` is reset nowhere else than in the restart branch. -/
theorem confirmed_step_keeps_strikes (g : List EulerAngle)
    (correct strikes : Nat) (w : EulerAngle) (hc : correct < g.length)
    (heq : (g.getD correct ⟨0, 0, 0⟩).equals w = true) :
    matchStep g correct strikes w = (correct + 1, strikes) := by
  simp only [matchStep]
  rw [heq]
  simp

/-- Witness for `confirmed_step_keeps_strikes`: gesture `[(5,5,5)]`, pending
`strikes = 2`, waypoint `(6,6,6)` within tolerance; the strikes survive. -/
theorem confirmed_step_keeps_strikes_case :
    matchStep [⟨5, 5, 5⟩] 0 2 ⟨6, 6, 6⟩ = (1, 2) :=
  confirmed_step_keeps_strikes [⟨5, 5, 5⟩] 0 2 ⟨6, 6, 6⟩ (by decide) (by decide)

/-- The claim's jitter shape: `w'` differs from `w` by exactly 1 on one axis
and is equal on the other two (the per-axis distances sum to 1). -/
def oneAxisNudge (w w' : EulerAngle) : Bool :=
  decide ((w'.roll - w.roll).natAbs + (w'.pitch - w.pitch).natAbs +
    (w'.yaw - w.yaw).natAbs = 1)

/-- C1 (amended): on a stream `[w, w', w]` with `w` not the sentinel and `w'`
a one-axis single-step nudge of `w`, the debouncer emits **all three**
waypoints.  The minor-change branch (line 292 / 366) requires `minorChange`
to already be `true`, which never happens, so neither the nudge nor the
return to `w` is suppressed — only exact repeats are. -/
theorem jitter_stream_fully_emitted (w w' : EulerAngle)
    (hw : w ≠ ⟨0, 0, 0⟩) (hn : oneAxisNudge w w' = true) :
    debRun ⟨⟨0, 0, 0⟩, false⟩ [w, w', w] = [w, w', w] := by
  have hww' : ¬(w = w') := by
    intro h
    subst h
    simp [oneAxisNudge] at hn
  have h0 : ¬((⟨0, 0, 0⟩ : EulerAngle) = w) := fun h => hw h.symm
  have h3 : ¬(w' = w) := fun h => hww' h.symm
  simp [debRun, debStep, h0, hww', h3]

/-- Witness for `jitter_stream_fully_emitted` at `w = (5,5,5)`,
`w' = (5,6,5)`. -/
theorem jitter_stream_fully_emitted_case :
    debRun ⟨⟨0, 0, 0⟩, false⟩ [⟨5, 5, 5⟩, ⟨5, 6, 5⟩, ⟨5, 5, 5⟩] =
      [⟨5, 5, 5⟩, ⟨5, 6, 5⟩, ⟨5, 5, 5⟩] :=
  jitter_stream_fully_emitted ⟨5, 5, 5⟩ ⟨5, 6, 5⟩ (by decide) (by decide)

/-- C1 counterexample: for `w = (5,5,5)` and the one-axis nudge
`w' = (6,5,5)`, the stream `[w, w', w]` produces two further emissions after
the first `w` — both through the bare debouncer and through the full
`record` loop (the recorded gesture is `[w, w', w]`), refuting the claimed
suppression. -/
theorem jitter_not_suppressed :
    debRun ⟨⟨0, 0, 0⟩, false⟩ [⟨5, 5, 5⟩, ⟨6, 5, 5⟩, ⟨5, 5, 5⟩] =
      [⟨5, 5, 5⟩, ⟨6, 5, 5⟩, ⟨5, 5, 5⟩] ∧
    debRun ⟨⟨0, 0, 0⟩, false⟩ [⟨5, 5, 5⟩, ⟨6, 5, 5⟩, ⟨5, 5, 5⟩] ≠
      [⟨5, 5, 5⟩] ∧
    recordLoop ⟨⟨0, 0, 0⟩, false, []⟩
      [⟨Pose.rest, 5, 5, 5⟩, ⟨Pose.rest, 6, 5, 5⟩, ⟨Pose.rest, 5, 5, 5⟩,
       ⟨Pose.doubleTap, 5, 5, 5⟩] =
      some ([⟨5, 5, 5⟩, ⟨6, 5, 5⟩, ⟨5, 5, 5⟩], []) := by
  decide

/-- Helper for C9: a `record` session whose `minorChange` flag is `false`
behaves exactly like the loop without the minor-change branch. -/
theorem recordLoop_eq_nm (stream : List Collector) :
    ∀ (la : EulerAngle) (ges : List EulerAngle),
      recordLoop ⟨la, false, ges⟩ stream = recordLoopNM la ges stream := by
  induction stream with
  | nil => intro la ges; rfl
  | cons c rest ih =>
    intro la ges
    by_cases h1 : c.currentPose = Pose.doubleTap
    · simp [recordLoop, recordLoopNM, h1]
    · by_cases h2 : la = c.angle
      · simp [recordLoop, recordLoopNM, h1, h2, ih]
      · simp [recordLoop, recordLoopNM, h1, h2, ih]

/-- Helper for C9: an `isGesture` session whose `minorChange` flag is `false`
behaves exactly like the loop without the minor-change branch. -/
theorem isGestureLoop_eq_nm (g : List EulerAngle) (stream : List Collector) :
    ∀ (pose : Pose) (la : EulerAngle) (correct strikes : Nat),
      isGestureLoop g pose ⟨la, correct, strikes, false⟩ stream =
        isGestureLoopNM g pose la correct strikes stream := by
  induction stream with
  | nil => intro pose la correct strikes; rfl
  | cons c rest ih =>
    intro pose la correct strikes
    by_cases h0 : correct < g.length
    · by_cases h1 : pose = Pose.waveOut
      · simp [isGestureLoop, isGestureLoopNM, h0, h1]
      · by_cases h2 : la = c.angle
        · simp [isGestureLoop, isGestureLoopNM, h0, h1, h2, ih]
        · simp [isGestureLoop, isGestureLoopNM, h0, h1, h2, ih]
    · simp [isGestureLoop, isGestureLoopNM, h0]

/-- C9: in both loops the `minorChange` flag is `false` at the start of every
iteration — the only assignment `minorChange = true` (line 294 / 368) is
guarded by `minorChange` already being `true` — so starting from a
`false` flag each loop is equal to its variant with the minor-change
suppression branch deleted: every incoming waypoint that is not exactly
equal to the last emitted one is processed/emitted. -/
theorem minor_branch_never_fires (stream : List Collector) (la : EulerAngle)
    (ges g : List EulerAngle) (pose : Pose) (correct strikes : Nat) :
    recordLoop ⟨la, false, ges⟩ stream = recordLoopNM la ges stream ∧
    isGestureLoop g pose ⟨la, correct, strikes, false⟩ stream =
      isGestureLoopNM g pose la correct strikes stream :=
  ⟨recordLoop_eq_nm stream la ges,
   isGestureLoop_eq_nm g stream pose la correct strikes⟩

/-- C7 (amended): looking up a name absent from the registry with the map
subscript used at line 575 does not fail: it silently default-inserts a null
`Gesture*` under that name and returns the null pointer. -/
theorem absent_lookup_inserts_null (m : GestMap) (k : String)
    (h : mapFind m k = none) :
    (mapBracketGet m k).2 = (none : GPtr) ∧
    mapFind (mapBracketGet m k).1 k = some (none : GPtr) := by
  induction m with
  | nil => simp [mapBracketGet, mapFind]
  | cons e rest ih =>
    obtain ⟨k', v'⟩ := e
    by_cases hk : k = k'
    · exfalso
      simp [mapFind, hk] at h
    · have h' : mapFind rest k = none := by simpa [mapFind, hk] using h
      by_cases hlt : keyLt k k' = true
      · simp [mapBracketGet, hlt, mapFind]
      · simp [mapBracketGet, hlt, hk, mapFind, (ih h').1, (ih h').2]

/-- Witness for `absent_lookup_inserts_null`: the registry holding only
`"arm"` is probed for the absent name `"leg"`. -/
theorem absent_lookup_inserts_null_case :
    (mapBracketGet [("arm", (some [⟨5, 5, 5⟩] : GPtr))] "leg").2 =
      (none : GPtr) ∧
    mapFind (mapBracketGet [("arm", (some [⟨5, 5, 5⟩] : GPtr))] "leg").1
      "leg" = some (none : GPtr) :=
  absent_lookup_inserts_null [("arm", (some [⟨5, 5, 5⟩] : GPtr))] "leg"
    (by decide)

/-- C7 counterexample: the name `"flex"` is absent from the empty registry,
yet the code's lookup returns a (null) `Gesture*` and creates an entry for
`"flex"` — it does not fail with `NotFound`. -/
theorem absent_lookup_not_notfound :
    mapFind [] "flex" = none ∧
    mapBracketGet [] "flex" = ([("flex", (none : GPtr))], (none : GPtr)) := by
  decide

/-- Helper for C8: the loop counter of `keyAt` is never incremented, so with
`i ≠ n` the loop walks the whole map and falls off the end. -/
theorem keyAtLoop_stuck (i n : Int) (hne : i ≠ n) :
    ∀ m : GestMap, keyAtLoop i n m = none := by
  intro m
  induction m with
  | nil => rfl
  | cons e rest ih => simp [keyAtLoop, hne, ih]

/-- C8 (amended): `keyAt` does not enumerate the stored names.  Because the
loop index is never incremented, `keyAt m n` returns the first key of the
(key-sorted) `std::map` when `n = 0` and `m` is nonempty, and otherwise runs
off the end of the non-void function (no value — undefined behavior). -/
theorem keyAt_only_first_sorted_key (m : GestMap) (n : Int) :
    keyAt m n = (match m with
      | [] => none
      | (k, _) :: _ => if n = 0 then some k else none) := by
  cases m with
  | nil => rfl
  | cons e rest =>
    obtain ⟨k, v⟩ := e
    by_cases hn : n = 0
    · subst hn
      simp [keyAt, keyAtLoop]
    · have h0 : (0 : Int) ≠ n := fun h => hn h.symm
      simp [keyAt, keyAtLoop, h0, hn, keyAtLoop_stuck 0 n h0]

/-- C8 counterexample: save `"b"` first, then `"a"`.  The resulting map has
size 2, but `keyAt 0` is `"a"` (the lexicographically least key, not the
first name saved, which was `"b"`), and `keyAt 1` returns no value at all. -/
theorem keyAt_not_insertion_order :
    (mapAssign (mapAssign [] "b" (some [⟨1, 1, 1⟩])) "a"
        (some [⟨2, 2, 2⟩])).length = 2 ∧
    keyAt (mapAssign (mapAssign [] "b" (some [⟨1, 1, 1⟩])) "a"
        (some [⟨2, 2, 2⟩])) 0 = some "a" ∧
    ("a" : String) ≠ "b" ∧
    keyAt (mapAssign (mapAssign [] "b" (some [⟨1, 1, 1⟩])) "a"
        (some [⟨2, 2, 2⟩])) 1 = none := by
  decide

/-- C truncation of a nonnegative real is its floor. -/
theorem cTrunc_of_nonneg {x : ℝ} (h : 0 ≤ x) : cTrunc x = ⌊x⌋ := if_pos h

/-- A real in `[0, 18]` truncates into `[0, 18]`. -/
theorem cTrunc_mem {x : ℝ} (h0 : 0 ≤ x) (h18 : x ≤ 18) :
    0 ≤ cTrunc x ∧ cTrunc x ≤ 18 := by
  rw [cTrunc_of_nonneg h0]
  refine ⟨Int.floor_nonneg.mpr h0, ?_⟩
  calc ⌊x⌋ ≤ ⌊(18 : ℝ)⌋ := Int.floor_mono h18
    _ = 18 := by norm_num

/-- The full-circle rescaling `(r + π) / (π * 2) * 18` maps `[-π, π]` into
`[0, 18]`. -/
theorem full_scale_mem {r : ℝ} (h1 : -Real.pi ≤ r) (h2 : r ≤ Real.pi) :
    0 ≤ (r + Real.pi) / (Real.pi * 2) * 18 ∧
    (r + Real.pi) / (Real.pi * 2) * 18 ≤ 18 := by
  have hpi : (0 : ℝ) < Real.pi := Real.pi_pos
  constructor
  · apply mul_nonneg (div_nonneg (by linarith) (by linarith)) (by norm_num)
  · have hq : (r + Real.pi) / (Real.pi * 2) ≤ 1 := by
      rw [div_le_one (by linarith)]
      linarith
    calc (r + Real.pi) / (Real.pi * 2) * 18 ≤ 1 * 18 :=
        mul_le_mul_of_nonneg_right hq (by norm_num)
      _ = 18 := by norm_num

/-- The half-circle rescaling `(p + π / 2) / π * 18` maps `[-π/2, π/2]` into
`[0, 18]`. -/
theorem half_scale_mem {p : ℝ} (h1 : -(Real.pi / 2) ≤ p)
    (h2 : p ≤ Real.pi / 2) :
    0 ≤ (p + Real.pi / 2) / Real.pi * 18 ∧
    (p + Real.pi / 2) / Real.pi * 18 ≤ 18 := by
  have hpi : (0 : ℝ) < Real.pi := Real.pi_pos
  constructor
  · apply mul_nonneg (div_nonneg (by linarith) (by linarith)) (by norm_num)
  · have hq : (p + Real.pi / 2) / Real.pi ≤ 1 := by
      rw [div_le_one (by linarith)]
      linarith
    calc (p + Real.pi / 2) / Real.pi * 18 ≤ 1 * 18 :=
        mul_le_mul_of_nonneg_right hq (by norm_num)
      _ = 18 := by norm_num

/-- C3 (amended): each quantized axis value lies in `[0, 18]` — the interval
`[0, B]` with `B = 18`, one wider than the claimed `[0, B-1]`; the code's own
comment (line 62) says "a scale from 0 to 18".  Holds for every input
quaternion, unit or not. -/
theorem quantization_range (q : Quat) :
    (0 ≤ roll_w q ∧ roll_w q ≤ 18) ∧
    (0 ≤ pitch_w q ∧ pitch_w q ≤ 18) ∧
    (0 ≤ yaw_w q ∧ yaw_w q ≤ 18) := by
  have hroll : -Real.pi ≤ quatRoll q ∧ quatRoll q ≤ Real.pi :=
    ⟨le_of_lt (Complex.neg_pi_lt_arg _), Complex.arg_le_pi _⟩
  have hyaw : -Real.pi ≤ quatYaw q ∧ quatYaw q ≤ Real.pi :=
    ⟨le_of_lt (Complex.neg_pi_lt_arg _), Complex.arg_le_pi _⟩
  have hpitch : -(Real.pi / 2) ≤ quatPitch q ∧ quatPitch q ≤ Real.pi / 2 :=
    ⟨Real.neg_pi_div_two_le_arcsin _, Real.arcsin_le_pi_div_two _⟩
  have h1 := full_scale_mem hroll.1 hroll.2
  have h2 := half_scale_mem hpitch.1 hpitch.2
  have h3 := full_scale_mem hyaw.1 hyaw.2
  exact ⟨cTrunc_mem h1.1 h1.2, cTrunc_mem h2.1 h2.2, cTrunc_mem h3.1 h3.2⟩

/-- C3 counterexample: the unit quaternion `(w,x,y,z) = (0,1,0,0)` (rotation
by π about the x-axis) has `roll = atan2(0, -1) = π`, and the mapping sends
it to `roll_w = 18`, outside the claimed range `[0, 17]`. -/
theorem quantization_exceeds_17 :
    ((0 : ℝ)^2 + 1^2 + 0^2 + 0^2 = 1) ∧
    roll_w ⟨0, 1, 0, 0⟩ = 18 ∧ ¬(roll_w ⟨0, 1, 0, 0⟩ ≤ 17) := by
  have harg : quatRoll ⟨0, 1, 0, 0⟩ = Real.pi := by
    have hc : (⟨1 - 2 * ((1 : ℝ) * 1 + 0 * 0),
        2 * ((0 : ℝ) * 1 + 0 * 0)⟩ : ℂ) = -1 := by
      norm_num [Complex.ext_iff]
    show atan2 (2 * ((0 : ℝ) * 1 + 0 * 0)) (1 - 2 * ((1 : ℝ) * 1 + 0 * 0)) =
      Real.pi
    rw [atan2, hc, Complex.arg_neg_one]
  have hval : (Real.pi + Real.pi) / (Real.pi * 2) * 18 = (18 : ℝ) := by
    rw [show Real.pi + Real.pi = Real.pi * 2 by ring,
      div_self (ne_of_gt (by positivity)), one_mul]
  have h18 : roll_w ⟨0, 1, 0, 0⟩ = 18 := by
    rw [roll_w, harg, hval, cTrunc_of_nonneg (by norm_num)]
    norm_num
  exact ⟨by norm_num, h18, by rw [h18]; decide⟩

end MyoPT
